import Mathlib

/-!
Verification development for the connection-lifecycle and data-materialization
coordinator of dbt-duckdb (src/dbt/adapters/duckdb/environments/local.py).

The Python classes `DuckDBCursorWrapper`, `DuckDBConnectionWrapper` and
`LocalEnvironment` are shallowly embedded below.  Mutable state of an
environment becomes an explicit `St` record threaded through the operations;
Python exceptions become an `Option Err` component of each operation's result
(the state at the moment of the raise is kept, matching Python semantics in
which side effects before a raise persist).  Engine and plugin calls are
recorded in an effect log so that frame conditions ("performs no writes") can
be stated.
-/

namespace DbtDuckDB

/-- Dataframes are opaque to the coordinator; an identifier suffices. -/
abbrev DF := Nat

/-- Distinct failure kinds raised by the embedded code, one constructor per
raise site of local.py:
`pluginNotFound` for the `Plugin ... not found` raises in `load_source` and
`store_relation`; `relationAlreadyExists` for the `Source ... already exists!`
raise; `pluginLoadError` for the failure of `assert df is not None`;
`dbtRuntimeError` for the `DbtRuntimeError` raised by
`DuckDBCursorWrapper.execute`. -/
inductive Err where
  | pluginNotFound (msg : String)
  | relationAlreadyExists (msg : String)
  | pluginLoadError
  | dbtRuntimeError (msg : String)
  deriving Repr, DecidableEq

/-- Observable effects against the engine and the plugins, logged in order. -/
inductive Eff where
  | connCreated
  | connClosed
  | handleOpened
  | execSql (sql : String)
  | registerDF (name : String)
  | pluginLoadCalled
  | runSql (code : String)
  | pluginStoreCalled
  | cursorClosed
  deriving Repr, DecidableEq

/-- Modelled from the spec: `SourceConfig` is a descriptor (schema, identifier,
database/catalog, arbitrary metadata carrying the save-mode and the
materialization hint) supplied by the caller; the class itself lives in the
`utils` module, which is not part of the embedded source file.  An absent
schema or database is `none` (Python falsy). -/
structure SourceConfig where
  schema : Option String
  identifier : String
  database : Option String
  meta : List (String × String)
  deriving Repr, DecidableEq

/-- Modelled from the spec: metadata lookup with a default, as used by
`source_config.get("save_mode", "overwrite")`. -/
def SourceConfig.get (sc : SourceConfig) (key dflt : String) : String :=
  match sc.meta.lookup key with
  | some v => v
  | none => dflt

/-- Modelled from the spec: the fully-qualified table name of the source
(database, schema and identifier joined with dots, absent parts omitted). -/
def SourceConfig.table_name (sc : SourceConfig) : String :=
  match sc.database, sc.schema with
  | some db, some s => db ++ "." ++ s ++ "." ++ sc.identifier
  | none, some s => s ++ "." ++ sc.identifier
  | some db, none => db ++ "." ++ sc.identifier
  | none, none => sc.identifier

/-- Modelled from the spec: `TargetConfig` is a caller-supplied descriptor; the
only field the embedded source reads directly is the compiled query text
(`target_config.config.model.compiled_code`). -/
structure TargetConfig where
  compiled_code : String
  deriving Repr, DecidableEq

/-- A plugin's capability set, as used by local.py: `load`, `store`,
`adapt_target_config`, `default_materialization`, `can_be_upstream_referenced`
and `create_source_config`.  `load` returning `none` models a Python `load`
returning `None`. -/
structure Plugin where
  load : SourceConfig → Option DF
  default_materialization : String
  adapt_target_config : TargetConfig → TargetConfig
  can_be_upstream_referenced : Bool
  create_source_config : TargetConfig → SourceConfig

/-- Immutable collaborators of a `LocalEnvironment`: the plugin registry (an
insertion-ordered association list, like a Python dict), the derived
`_keep_open` flag, the catalog row count returned by the existence query of
`load_source`, and the dataframe produced by `cursor.sql` in
`store_relation`. -/
structure Env where
  plugins : List (String × Plugin)
  keep_open : Bool
  catalogCount : SourceConfig → Nat
  runQueryDF : String → DF

/-- Mutable state of a `LocalEnvironment`: the shared connection (`conn`,
`true` when non-null), the open-handle counter, the registered-dataframe
cache `_REGISTERED_DF`, plus counters/logs of the observable effects
(`createdCount` connections opened, `connClosedCount` connections closed,
and the ordered effect log). -/
structure St where
  conn : Bool
  handle_count : Int
  registered_df : List (String × DF)
  createdCount : Nat
  connClosedCount : Nat
  log : List Eff
  deriving Repr, DecidableEq

/-- State of a freshly constructed environment: no connection, zero open
handles, empty cache. -/
def initSt : St :=
  { conn := false, handle_count := 0, registered_df := []
    createdCount := 0, connClosedCount := 0, log := [] }

/-- Append one effect to the log. -/
def logEff (st : St) (e : Eff) : St :=
  { st with log := st.log ++ [e] }

/-- Embeds `LocalEnvironment.close`: if the shared connection is non-null,
close it and set it to null; otherwise do nothing. -/
def close (st : St) : St :=
  if st.conn then
    { st with conn := false, connClosedCount := st.connClosedCount + 1
              log := st.log ++ [Eff.connClosed] }
  else st

/-- Embeds `LocalEnvironment.notify_closed`: under the lock, decrement
`handle_count`; if it is now exactly zero and `_keep_open` is false, call
`close`.  The decrement is unconditional. -/
def notify_closed (keep_open : Bool) (st : St) : St :=
  let st := { st with handle_count := st.handle_count - 1 }
  if st.handle_count = 0 ∧ keep_open = false then close st else st

/-- Embeds `LocalEnvironment.handle`: under the lock, lazily create the shared
connection if it is null and increment `handle_count`; afterwards a fresh
cursor is initialized outside the lock (cursor-local, so it only contributes
an effect-log entry here).  Returns the state; the returned
`DuckDBConnectionWrapper` is represented by the `wrapperClose` operation
below. -/
def handle (st : St) : St :=
  let st :=
    if st.conn then { st with handle_count := st.handle_count + 1 }
    else { st with conn := true, createdCount := st.createdCount + 1
                   handle_count := st.handle_count + 1
                   log := st.log ++ [Eff.connCreated] }
  logEff st Eff.handleOpened

/-- Embeds `DuckDBConnectionWrapper.close`: close the wrapped cursor, then
notify the environment. -/
def wrapperClose (keep_open : Bool) (st : St) : St :=
  notify_closed keep_open (logEff st Eff.cursorClosed)

/-- Outcome of the raw (engine-level) `cursor.execute` call: a result, a
Python `RuntimeError` carrying a message, or an exception of any other class
(kept abstract as an opaque value). -/
inductive ExecOutcome where
  | ok (r : Nat)
  | runtimeError (msg : String)
  | otherError (e : String)
  deriving Repr, DecidableEq

/-- Result of the wrapper's `execute`: a returned value, a raised
`DbtRuntimeError` with its message, or some other exception propagated
as-is. -/
inductive ExecResult where
  | ok (r : Nat)
  | raisedDbtRuntimeError (msg : String)
  | raisedOther (e : String)
  deriving Repr, DecidableEq

/-- Embeds `DuckDBCursorWrapper.execute`: call the underlying cursor's
`execute` with or without bindings; a `RuntimeError e` is re-raised as
`DbtRuntimeError (str e)`; anything else (a result, or an exception of any
other class) passes through unchanged.  `rawExec` stands for the wrapped
cursor's `execute`. -/
def DuckDBCursorWrapper.execute (rawExec : String → Option (List String) → ExecOutcome)
    (sql : String) (bindings : Option (List String)) : ExecResult :=
  let out :=
    match bindings with
    | none => rawExec sql none
    | some b => rawExec sql (some b)
  match out with
  | ExecOutcome.ok r => ExecResult.ok r
  | ExecOutcome.runtimeError m => ExecResult.raisedDbtRuntimeError m
  | ExecOutcome.otherError e => ExecResult.raisedOther e

/-- Message of the `Plugin ... not found` exception: the requested name
followed by the comma-joined list of registered plugin names. -/
def pluginNotFoundMsg (env : Env) (plugin_name : String) : String :=
  "Plugin " ++ plugin_name ++ " not found; known plugins are: "
    ++ String.intercalate "," (env.plugins.map Prod.fst)

/-- Python dict assignment `d[k] = v`: replace an existing binding in place,
else append. -/
def dictInsert (l : List (String × DF)) (k : String) (v : DF) : List (String × DF) :=
  if l.any (fun p => p.1 = k) then
    l.map (fun p => if p.1 = k then (k, v) else p)
  else l ++ [(k, v)]

/-- Embeds the tail of `LocalEnvironment.load_source`, from
`df = plugin.load(source_config)` to the final `cursor.close()` and
`handle.close()`: the `assert df is not None` check, the choice of
materialization (metadata override, else plugin default), the derivation of
the dataframe binding name, registration on the cursor, caching in
`_REGISTERED_DF` for "view" materializations, and the create-or-replace
statement. -/
def loadRest (env : Env) (plugin : Plugin) (source_config : SourceConfig) (st : St) :
    St × Option Err :=
  let st := logEff st Eff.pluginLoadCalled
  match plugin.load source_config with
  | none => (st, some Err.pluginLoadError)
  | some df =>
    let materialization :=
      match source_config.meta.lookup "materialization" with
      | some m => m
      | none => plugin.default_materialization
    let source_table_name := source_config.table_name
    let df_name := (source_table_name.replace "." "_") ++ "_df"
    let st := logEff st (Eff.registerDF df_name)
    let st :=
      if materialization = "view" then
        { st with registered_df := dictInsert st.registered_df df_name df }
      else st
    let st := logEff st (Eff.execSql ("CREATE OR REPLACE " ++ materialization ++ " "
      ++ source_table_name ++ " AS SELECT * FROM " ++ df_name))
    let st := logEff st Eff.cursorClosed
    (wrapperClose env.keep_open st, none)

/-- The existence query text built by `load_source` (whitespace normalized),
with the catalog filter appended when a database is specified. -/
def existenceQuery (source_config : SourceConfig) : String :=
  "SELECT COUNT(1) FROM system.information_schema.tables WHERE table_schema = ? AND table_name = ?"
    ++ (match source_config.database with
        | some _ => " AND table_catalog = ?"
        | none => "")

/-- Embeds `LocalEnvironment.load_source`: resolve the plugin (raising
`pluginNotFound` with the registered names if absent), acquire a handle and
cursor, create the schema if one is set, and for save-mode "ignore" or
"error_if_exists" run the catalog existence query: on a hit either raise
`relationAlreadyExists` or return with nothing further to do.  Otherwise
continue with `loadRest`.  Note that the early-return and raise branches do
not close the cursor or the handle, exactly as in the source. -/
def load_source (env : Env) (plugin_name : String) (source_config : SourceConfig)
    (st : St) : St × Option Err :=
  match env.plugins.lookup plugin_name with
  | none => (st, some (Err.pluginNotFound (pluginNotFoundMsg env plugin_name)))
  | some plugin =>
    let st := handle st
    let st :=
      match source_config.schema with
      | some s => logEff st (Eff.execSql ("CREATE SCHEMA IF NOT EXISTS " ++ s))
      | none => st
    let save_mode := source_config.get "save_mode" "overwrite"
    if save_mode = "ignore" ∨ save_mode = "error_if_exists" then
      let st := logEff st (Eff.execSql (existenceQuery source_config))
      if env.catalogCount source_config ≠ 0 then
        if save_mode = "error_if_exists" then
          (st, some (Err.relationAlreadyExists
            ("Source " ++ source_config.table_name ++ " already exists!")))
        else
          (st, none)
      else loadRest env plugin source_config st
    else loadRest env plugin source_config st

/-- Embeds the export phase of `LocalEnvironment.store_relation`: acquire a
handle and cursor, run the target's compiled query (`cursor.sql`), hand the
dataframe to the plugin's `store`, then close cursor and handle. -/
def storePhase (env : Env) (target_config : TargetConfig) (st : St) : St :=
  let st := handle st
  let st := logEff st (Eff.runSql target_config.compiled_code)
  let st := logEff st Eff.pluginStoreCalled
  let st := logEff st Eff.cursorClosed
  wrapperClose env.keep_open st

/-- Embeds `LocalEnvironment.store_relation`: resolve the plugin (same
`pluginNotFound` failure as `load_source`), let the plugin adapt the target
config, run the export phase, and, if the plugin can be referenced upstream,
derive a source config from the adapted target config and chain into
`load_source`. -/
def store_relation (env : Env) (plugin_name : String) (target_config : TargetConfig)
    (st : St) : St × Option Err :=
  match env.plugins.lookup plugin_name with
  | none => (st, some (Err.pluginNotFound (pluginNotFoundMsg env plugin_name)))
  | some plugin =>
    let target_config := plugin.adapt_target_config target_config
    let st := storePhase env target_config st
    if plugin.can_be_upstream_referenced then
      load_source env plugin_name (plugin.create_source_config target_config) st
    else (st, none)

/-- One lifecycle action: a `handle()` call or a wrapper `close()` call. -/
inductive Act where
  | openH
  | closeH
  deriving Repr, DecidableEq

/-- Run a sequence of lifecycle actions from a state.  Each action is one
mutex-protected critical section of local.py, so an interleaving of
concurrent calls is a sequence of these atomic steps. -/
def run (keep_open : Bool) : St → List Act → St
  | st, [] => st
  | st, Act.openH :: rest => run keep_open (handle st) rest
  | st, Act.closeH :: rest => run keep_open (wrapperClose keep_open st) rest

/-! Concrete fixtures used to instantiate the theorems below. -/

/-- A sample source config with a schema set. -/
def scSample : SourceConfig :=
  { schema := some "main", identifier := "t0", database := none, meta := [] }

/-- A plugin whose `load` always produces a dataframe. -/
def pluginOK : Plugin :=
  { load := fun _ => some 7, default_materialization := "table"
    adapt_target_config := fun tc => tc, can_be_upstream_referenced := false
    create_source_config := fun _ => scSample }

/-- A plugin that declares itself upstream-referenceable. -/
def pluginUpstream : Plugin := { pluginOK with can_be_upstream_referenced := true }

/-- A plugin whose `load` returns `None`. -/
def pluginLoadNone : Plugin := { pluginOK with load := fun _ => none }

/-- An environment whose catalog reports every queried relation as existing. -/
def envExisting : Env :=
  { plugins := [("p", pluginOK)], keep_open := false
    catalogCount := fun _ => 1, runQueryDF := fun _ => 0 }

/-- An environment with two registered plugins and an empty catalog. -/
def envEmptyCatalog : Env :=
  { plugins := [("p1", pluginOK), ("p2", pluginLoadNone)], keep_open := false
    catalogCount := fun _ => 0, runQueryDF := fun _ => 0 }

/-- An environment registering one upstream-referenceable plugin. -/
def envUpstream : Env :=
  { plugins := [("mem", pluginUpstream)], keep_open := false
    catalogCount := fun _ => 0, runQueryDF := fun _ => 0 }

/-- Source config with save-mode "ignore". -/
def scIgnore : SourceConfig :=
  { schema := none, identifier := "t1", database := none
    meta := [("save_mode", "ignore")] }

/-- Source config with save-mode "error_if_exists". -/
def scErrorMode : SourceConfig :=
  { schema := none, identifier := "t1", database := none
    meta := [("save_mode", "error_if_exists")] }

/-- A sample target config. -/
def tcSample : TargetConfig := { compiled_code := "select 1" }

/-- A raw cursor `execute` that raises `RuntimeError` when called without
bindings and succeeds when called with bindings. -/
def rawExecRuntimeFail : String → Option (List String) → ExecOutcome :=
  fun _ b =>
    match b with
    | none => ExecOutcome.runtimeError "Binder Error: boom"
    | some _ => ExecOutcome.ok 7

/-- A raw cursor `execute` that raises an exception that is not a
`RuntimeError`. -/
def rawExecOther : String → Option (List String) → ExecOutcome :=
  fun _ _ => ExecOutcome.otherError "KeyboardInterrupt"

/-- A state with one outstanding handle. -/
def stCount1 : St := { initSt with conn := true, handle_count := 1, createdCount := 1 }

/-- The lifecycle trace of claim C1: N `handle()` acquisitions followed by
the N matching wrapper `close()` calls, each of which is one mutex-protected
atomic step, so this covers every interleaving of the concurrent calls. -/
def lifecycleTrace (N : Nat) : List Act :=
  List.replicate N Act.openH ++ List.replicate N Act.closeH

/-- Closed form of the state reached from `initSt` after i `handle()` calls
followed by j wrapper `close()` calls (meaningful for j ≤ i): the connection
was created once on the first `handle()` and is torn down, when `keep_open`
is false, exactly by the last close. -/
def expectSt (ko : Bool) (i j : Nat) : St :=
  if i = 0 then initSt
  else
    { conn := decide (j < i ∨ ko = true)
      handle_count := (i : Int) - (j : Int)
      registered_df := []
      createdCount := 1
      connClosedCount := if j = i ∧ ko = false then 1 else 0
      log := Eff.connCreated :: (List.replicate i Eff.handleOpened
               ++ List.replicate j Eff.cursorClosed
               ++ (if j = i ∧ ko = false then [Eff.connClosed] else [])) }

end DbtDuckDB

namespace DbtDuckDB

/-! Theorems settling the claims. -/

/-- C8: `LocalEnvironment.close` is idempotent: when the shared handle is
already null it is a no-op, and for every state, `close` twice leaves the
environment exactly as `close` once does. -/
theorem close_is_idempotent (s : St) :
    (s.conn = false → close s = s) ∧ close (close s) = close s := by
  constructor
  · intro h
    simp [close, h]
  · by_cases h : s.conn <;> simp [close, h]

/-- Witness for `close_is_idempotent` at the initial state. -/
theorem close_is_idempotent_witness :
    close initSt = initSt ∧ close (close stCount1) = close stCount1 :=
  ⟨(close_is_idempotent initSt).1 rfl, (close_is_idempotent stCount1).2⟩

/-- C10: `DuckDBConnectionWrapper.close` decrements `handle_count`
unconditionally through `notify_closed`, so closing the same wrapper twice
decrements twice, and from a state with one outstanding handle two closes
drive the counter to -1: there is no clamp at zero. -/
theorem wrapper_close_unconditional_decrement (ko : Bool) (s : St) :
    (wrapperClose ko s).handle_count = s.handle_count - 1 ∧
    (s.handle_count = 1 → (wrapperClose ko (wrapperClose ko s)).handle_count = -1) := by
  have key : ∀ t : St, (wrapperClose ko t).handle_count = t.handle_count - 1 := by
    intro t
    simp only [wrapperClose, notify_closed, logEff, close]
    split
    · split <;> rfl
    · rfl
  refine ⟨key s, fun h1 => ?_⟩
  rw [key, key, h1]
  rfl

/-- Witness for `wrapper_close_unconditional_decrement` starting from one
outstanding handle (with `keep_open = false`). -/
theorem wrapper_close_unconditional_decrement_witness :
    (wrapperClose false stCount1).handle_count = stCount1.handle_count - 1 ∧
    (wrapperClose false (wrapperClose false stCount1)).handle_count = -1 :=
  ⟨(wrapper_close_unconditional_decrement false stCount1).1,
   (wrapper_close_unconditional_decrement false stCount1).2 rfl⟩

/-- C5: the cursor wrapper's `execute` turns an underlying `RuntimeError`
with message m into a `DbtRuntimeError` whose message is m verbatim, and
returns the underlying result unchanged on success. -/
theorem execute_normalizes_runtime_error
    (rawExec : String → Option (List String) → ExecOutcome)
    (sql : String) (b : Option (List String)) (m : String) (r : Nat) :
    (rawExec sql b = ExecOutcome.runtimeError m →
      DuckDBCursorWrapper.execute rawExec sql b = ExecResult.raisedDbtRuntimeError m) ∧
    (rawExec sql b = ExecOutcome.ok r →
      DuckDBCursorWrapper.execute rawExec sql b = ExecResult.ok r) := by
  cases b <;> exact ⟨fun h => by simp [DuckDBCursorWrapper.execute, h],
                     fun h => by simp [DuckDBCursorWrapper.execute, h]⟩

/-- Witness for `execute_normalizes_runtime_error` on a concrete raw cursor:
without bindings it raises, with bindings it succeeds. -/
theorem execute_normalizes_runtime_error_witness :
    DuckDBCursorWrapper.execute rawExecRuntimeFail "select 1" none
      = ExecResult.raisedDbtRuntimeError "Binder Error: boom" ∧
    DuckDBCursorWrapper.execute rawExecRuntimeFail "select 1" (some ["x"])
      = ExecResult.ok 7 :=
  ⟨(execute_normalizes_runtime_error rawExecRuntimeFail "select 1" none
      "Binder Error: boom" 0).1 rfl,
   (execute_normalizes_runtime_error rawExecRuntimeFail "select 1" (some ["x"])
      "" 7).2 rfl⟩

/-- C9: the cursor wrapper's `execute` only normalizes `RuntimeError`: an
exception of any other class raised by the underlying `execute` is propagated
unchanged, not converted to `DbtRuntimeError`. -/
theorem execute_propagates_other_exceptions
    (rawExec : String → Option (List String) → ExecOutcome)
    (sql : String) (b : Option (List String)) (e : String) :
    rawExec sql b = ExecOutcome.otherError e →
    DuckDBCursorWrapper.execute rawExec sql b = ExecResult.raisedOther e := by
  intro h
  cases b <;> simp [DuckDBCursorWrapper.execute, h]

/-- Witness for `execute_propagates_other_exceptions` on a raw cursor raising
a non-RuntimeError exception. -/
theorem execute_propagates_other_exceptions_witness :
    DuckDBCursorWrapper.execute rawExecOther "select 1" none
      = ExecResult.raisedOther "KeyboardInterrupt" :=
  execute_propagates_other_exceptions rawExecOther "select 1" none
    "KeyboardInterrupt" rfl

/-- C4: for a plugin name absent from the registry, both `load_source` and
`store_relation` raise `pluginNotFound` whose message lists exactly the
registered plugin names (comma-joined, in registry order), and leave the
state untouched: no connection handle is acquired. -/
theorem plugin_not_found_lists_known_names
    (env : Env) (pn : String) (sc : SourceConfig) (tc : TargetConfig) (st : St) :
    env.plugins.lookup pn = none →
    load_source env pn sc st =
      (st, some (Err.pluginNotFound ("Plugin " ++ pn
        ++ " not found; known plugins are: "
        ++ String.intercalate "," (env.plugins.map Prod.fst)))) ∧
    store_relation env pn tc st =
      (st, some (Err.pluginNotFound ("Plugin " ++ pn
        ++ " not found; known plugins are: "
        ++ String.intercalate "," (env.plugins.map Prod.fst)))) := by
  intro h
  constructor <;> simp [load_source, store_relation, h, pluginNotFoundMsg]

/-- Witness for `plugin_not_found_lists_known_names`: looking up "zzz" among
plugins "p1","p2" fails and produces the message naming exactly "p1,p2". -/
theorem plugin_not_found_lists_known_names_witness :
    load_source envEmptyCatalog "zzz" scSample initSt =
      (initSt, some (Err.pluginNotFound
        "Plugin zzz not found; known plugins are: p1,p2")) ∧
    store_relation envEmptyCatalog "zzz" tcSample initSt =
      (initSt, some (Err.pluginNotFound
        "Plugin zzz not found; known plugins are: p1,p2")) := by
  have h := plugin_not_found_lists_known_names envEmptyCatalog "zzz" scSample
    tcSample initSt rfl
  simpa [envEmptyCatalog] using h

/-- C2: evaluation at the failing input.  With save-mode "ignore" and a
catalog hit, `load_source` performs no write (the log holds only the
connection creation, the handle acquisition and the read-only existence
query: no plugin load, no register, no create statement) and returns
normally — but the early `return` skips `cursor.close()` and
`handle.close()`, so no `cursorClosed` effect is logged and `handle_count`
ends at 1 instead of returning to its pre-call value 0. -/
theorem load_source_ignore_existing_leaks_handle :
    (load_source envExisting "p" scIgnore initSt).2 = none ∧
    initSt.handle_count = 0 ∧
    (load_source envExisting "p" scIgnore initSt).1.handle_count = 1 ∧
    (load_source envExisting "p" scIgnore initSt).1.log =
      [Eff.connCreated, Eff.handleOpened, Eff.execSql (existenceQuery scIgnore)] :=
  ⟨rfl, rfl, rfl, rfl⟩

/-- C3: evaluation at the failing input.  With save-mode "error_if_exists"
and a catalog hit, `load_source` raises the relation-already-exists error as
the claim states, but the raise happens with no `cursor.close()` or
`handle.close()` on that path: no `cursorClosed` effect is logged and
`handle_count` stays at 1, so the acquired handle is not released. -/
theorem load_source_error_if_exists_leaks_handle :
    (load_source envExisting "p" scErrorMode initSt).2 =
      some (Err.relationAlreadyExists "Source t1 already exists!") ∧
    (load_source envExisting "p" scErrorMode initSt).1.handle_count = 1 ∧
    (load_source envExisting "p" scErrorMode initSt).1.log =
      [Eff.connCreated, Eff.handleOpened, Eff.execSql (existenceQuery scErrorMode)] :=
  ⟨rfl, rfl, rfl⟩

/-- C6: whenever `load_source` reaches the plugin-load step (the plugin
resolves, and any "ignore"/"error_if_exists" existence check comes back
empty) and the plugin's `load` returns nothing, `load_source` fails with the
plugin-load error (the failed `assert df is not None`). -/
theorem load_source_fails_when_plugin_load_returns_none
    (env : Env) (pn : String) (plugin : Plugin) (sc : SourceConfig) (st : St) :
    env.plugins.lookup pn = some plugin →
    plugin.load sc = none →
    ((sc.get "save_mode" "overwrite" = "ignore" ∨
      sc.get "save_mode" "overwrite" = "error_if_exists") → env.catalogCount sc = 0) →
    (load_source env pn sc st).2 = some Err.pluginLoadError := by
  intro hlook hload hcat
  have hrest : ∀ t : St, (loadRest env plugin sc t).2 = some Err.pluginLoadError := by
    intro t
    simp [loadRest, hload]
  by_cases hsm : sc.get "save_mode" "overwrite" = "ignore" ∨
      sc.get "save_mode" "overwrite" = "error_if_exists"
  · have hc := hcat hsm
    simp [load_source, hlook, hsm, hc, hrest]
  · simp [load_source, hlook, hsm, hrest]

/-- Witness for `load_source_fails_when_plugin_load_returns_none`: plugin
"p2" resolves, its `load` returns `none`, and the default save-mode
"overwrite" skips the existence check. -/
theorem load_source_fails_when_plugin_load_returns_none_witness :
    (load_source envEmptyCatalog "p2" scSample initSt).2 = some Err.pluginLoadError :=
  load_source_fails_when_plugin_load_returns_none envEmptyCatalog "p2" pluginLoadNone
    scSample initSt rfl rfl (fun _ => rfl)

/-- C7: when the resolved plugin is upstream-referenceable, `store_relation`
equals the chained `load_source` applied to the source config the plugin
derives from the adapted target config, started from the state left by the
export phase (store plus handle release).  In particular the chained call's
failure, if any, is the result of `store_relation` itself: nothing is caught
or downgraded. -/
theorem store_relation_chains_into_load_source
    (env : Env) (pn : String) (plugin : Plugin) (tc : TargetConfig) (st : St) :
    env.plugins.lookup pn = some plugin →
    plugin.can_be_upstream_referenced = true →
    store_relation env pn tc st =
      load_source env pn (plugin.create_source_config (plugin.adapt_target_config tc))
        (storePhase env (plugin.adapt_target_config tc) st) := by
  intro hlook hup
  simp [store_relation, hlook, hup]

/-- Witness for `store_relation_chains_into_load_source` on the
upstream-referenceable plugin "mem". -/
theorem store_relation_chains_into_load_source_witness :
    store_relation envUpstream "mem" tcSample initSt =
      load_source envUpstream "mem"
        (pluginUpstream.create_source_config (pluginUpstream.adapt_target_config tcSample))
        (storePhase envUpstream (pluginUpstream.adapt_target_config tcSample) initSt) :=
  store_relation_chains_into_load_source envUpstream "mem" pluginUpstream tcSample
    initSt rfl rfl

/-- Running an appended action list is running the two parts in order. -/
theorem run_append (ko : Bool) (a b : List Act) (st : St) :
    run ko st (a ++ b) = run ko (run ko st a) b := by
  induction a generalizing st with
  | nil => rfl
  | cons x xs ih => cases x <;> simp [run, ih]

/-- `handle` on a state whose connection is already open just increments the
counter and logs the acquisition. -/
theorem handle_conn_true (st : St) (h : st.conn = true) :
    handle st = { st with handle_count := st.handle_count + 1
                          log := st.log ++ [Eff.handleOpened] } := by
  simp [handle, logEff, h]

/-- Running k `handle()` calls from a state with an open connection adds k to
the counter and logs k acquisitions; nothing else changes. -/
theorem run_opens_conn_true (ko : Bool) (k : Nat) (st : St) (h : st.conn = true) :
    run ko st (List.replicate k Act.openH) =
      { st with handle_count := st.handle_count + k
                log := st.log ++ List.replicate k Eff.handleOpened } := by
  induction k generalizing st with
  | zero => simp [run]
  | succ k ih =>
      rw [List.replicate_succ]
      rw [show run ko st (Act.openH :: List.replicate k Act.openH) =
            run ko (handle st) (List.replicate k Act.openH) from rfl]
      rw [handle_conn_true st h]
      have hnew : ({ st with handle_count := st.handle_count + 1
                             log := st.log ++ [Eff.handleOpened] } : St).conn = true := h
      rw [ih _ hnew]
      simp [St.mk.injEq, List.replicate_succ, List.append_assoc]
      omega

/-- Running i ≥ 1 `handle()` calls from the initial state creates the shared
connection once and leaves i outstanding handles. -/
theorem run_opens (ko : Bool) (i : Nat) (hi : 0 < i) :
    run ko initSt (List.replicate i Act.openH) = expectSt ko i 0 := by
  obtain ⟨k, rfl⟩ : ∃ k, i = k + 1 := ⟨i - 1, by omega⟩
  rw [List.replicate_succ]
  rw [show run ko initSt (Act.openH :: List.replicate k Act.openH) =
        run ko (handle initSt) (List.replicate k Act.openH) from rfl]
  rw [run_opens_conn_true ko k (handle initSt) rfl]
  simp [handle, logEff, initSt, expectSt, St.mk.injEq, List.replicate_succ]
  omega

/-- One wrapper `close()` from the state with i opens and j < i closes
performed: the counter decrements and, because handles are still
outstanding, the shared connection stays open. -/
theorem wrapper_close_step (ko : Bool) (i j : Nat) (hj : j < i) :
    wrapperClose ko (expectSt ko i j) = expectSt ko i (j + 1) := by
  have hi : i ≠ 0 := by omega
  have hji : ¬(j = i) := by omega
  rcases Nat.lt_or_ge (j + 1) i with h1 | h1
  · have hcnt : ¬((i : Int) - (j : Int) - 1 = 0) := by omega
    have hj1i : ¬(j + 1 = i) := by omega
    simp only [expectSt, if_neg hi, wrapperClose, logEff, notify_closed, close]
    simp [St.mk.injEq, hj, hji, hj1i, h1, hcnt, List.replicate_succ', List.append_assoc]
    omega
  · have h1 : j + 1 = i := by omega
    have hcnt : ((i : Int) - (j : Int) - 1 = 0) := by omega
    rcases Bool.eq_false_or_eq_true ko with hko | hko
    · subst hko
      simp only [expectSt, if_neg hi, wrapperClose, logEff, notify_closed, close]
      simp [St.mk.injEq, hj, hji, h1, hcnt, List.replicate_succ', List.append_assoc]
      rw [← h1, List.replicate_succ']
    · subst hko
      simp only [expectSt, if_neg hi, wrapperClose, logEff, notify_closed, close]
      simp [St.mk.injEq, hj, hji, h1, hcnt, List.replicate_succ', List.append_assoc]
      rw [← h1, List.replicate_succ', List.append_assoc]
      rfl

/-- Running j ≤ i wrapper `close()` calls after i opens reaches the closed
form `expectSt ko i j`. -/
theorem run_closes (ko : Bool) (i j : Nat) (hj : j ≤ i) :
    run ko (expectSt ko i 0) (List.replicate j Act.closeH) = expectSt ko i j := by
  induction j with
  | zero => rfl
  | succ j ih =>
      have hj' : j ≤ i := by omega
      rw [List.replicate_succ', run_append, ih hj']
      exact wrapper_close_step ko i j (by omega)

/-- Characterization of every prefix of the lifecycle trace: i opens then
j ≤ i closes land exactly on `expectSt ko i j`. -/
theorem run_lifecycle_prefix (ko : Bool) (i j : Nat) (hj : j ≤ i) :
    run ko initSt (List.replicate i Act.openH ++ List.replicate j Act.closeH) =
      expectSt ko i j := by
  rcases Nat.eq_zero_or_pos i with h0 | hi
  · subst h0
    have h0j : j = 0 := by omega
    subst h0j
    rfl
  · rw [run_append, run_opens ko i hi, run_closes ko i j hj]

/-- Taking k actions of the lifecycle trace yields min k N opens followed by
min (k - N) N closes. -/
theorem lifecycleTrace_take (N k : Nat) :
    (lifecycleTrace N).take k =
      List.replicate (min k N) Act.openH ++ List.replicate (min (k - N) N) Act.closeH := by
  simp [lifecycleTrace, List.take_append_eq_append_take, List.take_replicate]

/-- Safety facts visible on the closed form: counter nonnegative, connection
created at most once, and the null-when-idle invariant. -/
theorem expectSt_facts (ko : Bool) (i j : Nat) (hj : j ≤ i) :
    0 ≤ (expectSt ko i j).handle_count ∧
    (expectSt ko i j).createdCount ≤ 1 ∧
    ((expectSt ko i j).handle_count = 0 ∧ ko = false → (expectSt ko i j).conn = false) := by
  rcases Nat.eq_zero_or_pos i with h0 | hi
  · subst h0
    have h0j : j = 0 := by omega
    subst h0j
    refine ⟨?_, ?_, ?_⟩ <;> simp [expectSt, initSt]
  · have hne : i ≠ 0 := by omega
    refine ⟨?_, ?_, ?_⟩
    · simp only [expectSt, if_neg hne]
      omega
    · simp [expectSt, hne]
    · simp only [expectSt, if_neg hne]
      rintro ⟨hcount, hko⟩
      subst hko
      have hji : j = i := by omega
      simp [hji]

/-- C1: for N ≥ 1 `handle()` calls followed by the N matching wrapper
`close()` calls (each atomic step one mutex-protected critical section, any
interleaving of the concurrent callers), the shared connection is created
exactly once, `handle_count` ends at 0 and never goes negative, with
`keep_open = false` the shared connection is closed exactly once and only at
the last close, and at every prefix the invariant (`handle_count = 0` and
not `keep_open` implies the shared connection is null) holds, with the
connection created at most once throughout. -/
theorem lifecycle_handle_close_protocol (N : Nat) (ko : Bool) (hN : 0 < N) :
    (run ko initSt (lifecycleTrace N)).createdCount = 1 ∧
    (run ko initSt (lifecycleTrace N)).handle_count = 0 ∧
    (ko = false →
      (run ko initSt (lifecycleTrace N)).connClosedCount = 1 ∧
      (run ko initSt ((lifecycleTrace N).take (2 * N - 1))).connClosedCount = 0) ∧
    ∀ k : Nat,
      0 ≤ (run ko initSt ((lifecycleTrace N).take k)).handle_count ∧
      (run ko initSt ((lifecycleTrace N).take k)).createdCount ≤ 1 ∧
      ((run ko initSt ((lifecycleTrace N).take k)).handle_count = 0 ∧ ko = false →
        (run ko initSt ((lifecycleTrace N).take k)).conn = false) := by
  have hN0 : N ≠ 0 := by omega
  have hfull : run ko initSt (lifecycleTrace N) = expectSt ko N N :=
    run_lifecycle_prefix ko N N le_rfl
  have hpre : ∀ k : Nat, run ko initSt ((lifecycleTrace N).take k) =
      expectSt ko (min k N) (min (k - N) N) := by
    intro k
    rw [lifecycleTrace_take]
    exact run_lifecycle_prefix ko _ _ (by omega)
  refine ⟨?_, ?_, ?_, ?_⟩
  · rw [hfull]
    simp [expectSt, hN0]
  · rw [hfull]
    simp only [expectSt, if_neg hN0]
    omega
  · intro hko
    subst hko
    constructor
    · rw [hfull]
      simp [expectSt, hN0]
    · rw [hpre]
      have h1 : min (2 * N - 1) N = N := by omega
      have h2 : min (2 * N - 1 - N) N = N - 1 := by omega
      rw [h1, h2]
      simp only [expectSt, if_neg hN0]
      have hne : ¬(N - 1 = N) := by omega
      simp [hne]
  · intro k
    rw [hpre]
    exact expectSt_facts ko _ _ (by omega)

/-- Witness for `lifecycle_handle_close_protocol` at N = 2 with
`keep_open = false`. -/
theorem lifecycle_handle_close_protocol_witness :
    (run false initSt (lifecycleTrace 2)).createdCount = 1 ∧
    (run false initSt (lifecycleTrace 2)).handle_count = 0 ∧
    (false = false →
      (run false initSt (lifecycleTrace 2)).connClosedCount = 1 ∧
      (run false initSt ((lifecycleTrace 2).take (2 * 2 - 1))).connClosedCount = 0) ∧
    ∀ k : Nat,
      0 ≤ (run false initSt ((lifecycleTrace 2).take k)).handle_count ∧
      (run false initSt ((lifecycleTrace 2).take k)).createdCount ≤ 1 ∧
      ((run false initSt ((lifecycleTrace 2).take k)).handle_count = 0 ∧ false = false →
        (run false initSt ((lifecycleTrace 2).take k)).conn = false) :=
  lifecycle_handle_close_protocol 2 false (by decide)

end DbtDuckDB
